import Mathlib

/-!
Shallow embedding of the PowerPoint MCP server (`src/main.py`).

Slides are modelled as Lean lists (1-based positions, as in the source);
the host application's `Slides.Paste(i)` / `Slide.Delete()` primitives are
modelled as list insertion/deletion at a 1-based position, and COM object
references are modelled as natural-number identifiers (reference equality
becomes equality of identifiers).  Operations that validate their inputs
return `Except String`: `Except.error` models a raised Python exception
crossing the operation boundary, while structured error dictionaries are
modelled by a dedicated result type.
-/

namespace PPT

/-! ### Slide-sequence primitives (move_slide, copy_slide) -/

/-- `Slides.Paste(pos)`: insert a slide so that it lands at 1-based
position `pos` (the host pastes immediately before the slide currently at
`pos`). -/
def slidePaste (slides : List α) (pos : Nat) (x : α) : List α :=
  slides.insertIdx (pos - 1) x

/-- `Slides.Item(pos).Delete()`: remove the slide at 1-based position `pos`. -/
def slideDelete (slides : List α) (pos : Nat) : List α :=
  slides.eraseIdx (pos - 1)

/-- `Slide.MoveTo(toPos)`: remove the slide at 1-based position `fromPos`
and reinsert it so that it ends at 1-based position `toPos`. -/
def slideMoveTo (slides : List α) (fromPos toPos : Nat) : List α :=
  match slides[fromPos - 1]? with
  | none => slides
  | some x => (slides.eraseIdx (fromPos - 1)).insertIdx (toPos - 1) x

/-- `move_slide` from `src/main.py`: validate both positions against the
current count, copy the slide, paste it (one past the target when moving
down, exactly at the target when moving up), then delete the original
(at its unchanged position when moving down, shifted one later when
moving up). -/
def move_slide (slides : List α) (slide_id new_position : Nat) :
    Except String (List α) :=
  let slide_count := slides.length
  if h1 : slide_id < 1 ∨ slide_count < slide_id then
    Except.error "Invalid slide ID"
  else if h2 : new_position < 1 ∨ slide_count < new_position then
    Except.error "Invalid new position"
  else
    have hp : slide_id - 1 < slides.length := by omega
    let src := slides.get ⟨slide_id - 1, hp⟩
    let pasted :=
      if new_position > slide_id then
        slidePaste slides (new_position + 1) src
      else
        slidePaste slides new_position src
    let result :=
      if new_position > slide_id then
        slideDelete pasted slide_id
      else
        slideDelete pasted (slide_id + 1)
    Except.ok result

/-- `copy_slide` from `src/main.py`: validate the source position,
duplicate the slide (the host's `Duplicate()` inserts the copy immediately
after the source), then either relocate it after the requested position or,
when no position is requested, relocate it to the end unless it is already
there.  Returns the resulting slide sequence and the duplicate's final
1-based position. -/
def copy_slide (slides : List α) (slide_id : Nat) (insert_after : Option Nat) :
    Except String (List α × Nat) :=
  let slide_count := slides.length
  if h1 : slide_id < 1 ∨ slide_count < slide_id then
    Except.error "Invalid slide ID"
  else
    have hp : slide_id - 1 < slides.length := by omega
    let src := slides.get ⟨slide_id - 1, hp⟩
    -- Duplicate() inserts the new slide immediately after the source slide,
    -- so the duplicate sits at 1-based position slide_id + 1.
    let dup := slides.insertIdx slide_id src
    let new_slide_index := slide_id + 1
    match insert_after with
    | some ia =>
      if slide_count < ia then
        Except.error "Invalid insert position"
      else if ia ≠ slide_id then
        let target_position := ia + 1
        Except.ok (slideMoveTo dup new_slide_index target_position, target_position)
      else
        Except.ok (dup, new_slide_index)
    | none =>
      -- No specific position requested: move to the end if not already there.
      let final_slide_count := dup.length
      if new_slide_index ≠ final_slide_count then
        Except.ok (slideMoveTo dup new_slide_index final_slide_count, final_slide_count)
      else
        Except.ok (dup, new_slide_index)

/-! ### Shapes and title resolution (get_slide_title) -/

/-- A shape as consumed by the title resolver and the text-update path:
its type code (`Shape.Type`), its placeholder sub-type when a
`PlaceholderFormat` attribute exists, the text of its text frame when one
with a `TextRange` exists, and the text capability of each of its grouped
sub-shapes. -/
structure TShape where
  ty : Nat
  phType : Option Nat
  text : Option String
  group : List (Option String)
deriving DecidableEq

/-- First loop of `get_slide_title`: scan for a title placeholder
(`Type = 14` with `PlaceholderFormat.Type = 1`) and return its text.
Accessing `PlaceholderFormat` on a type-14 shape that lacks the attribute
raises (modelled by `Except.error`), which the caller's outer handler turns
into the fallback literal. -/
def titleLoop1 : List TShape → Except Unit (Option String)
  | [] => Except.ok none
  | s :: rest =>
    if s.ty = 14 then
      match s.phType with
      | none => Except.error ()
      | some pt =>
        if pt = 1 then
          match s.text with
          | some t => Except.ok (some t)
          | none => titleLoop1 rest
        else titleLoop1 rest
    else titleLoop1 rest

/-- Second loop of `get_slide_title`: first type-17 shape whose text is
non-empty after stripping surrounding whitespace. -/
def titleLoop2 : List TShape → Option String
  | [] => none
  | s :: rest =>
    if s.ty = 17 then
      match s.text with
      | some t => if t != "" && t.trim != "" then some t else titleLoop2 rest
      | none => titleLoop2 rest
    else titleLoop2 rest

/-- Third loop of `get_slide_title`: first non-title-placeholder shape
whose text is non-empty after stripping surrounding whitespace. -/
def titleLoop3 : List TShape → Option String
  | [] => none
  | s :: rest =>
    if !(s.ty == 14 && s.phType == some 1) then
      match s.text with
      | some t => if t != "" && t.trim != "" then some t else titleLoop3 rest
      | none => titleLoop3 rest
    else titleLoop3 rest

/-- `get_slide_title` from `src/main.py`: title placeholder first (its text
returned verbatim, even when empty), then the first type-17 shape with
non-empty text, then the first other non-title-placeholder shape with
non-empty text, else the literal fallback.  A fault in the placeholder scan
is caught by the outer handler and also yields the fallback. -/
def get_slide_title (shapes : List TShape) : String :=
  match titleLoop1 shapes with
  | Except.error _ => "Untitled Slide"
  | Except.ok (some t) => t
  | Except.ok none =>
    match titleLoop2 shapes with
    | some t => t
    | none =>
      match titleLoop3 shapes with
      | some t => t
      | none => "Untitled Slide"

/-- Title placeholder test: declared role placeholder (type 14) with
placeholder sub-type title (1). -/
def isTitlePh (s : TShape) : Bool := s.ty == 14 && s.phType == some 1

/-- Non-empty text test (Python truthiness of `text and text.strip()`). -/
def hasNonEmptyText (s : TShape) : Bool :=
  match s.text with
  | some t => t != "" && t.trim != ""
  | none => false

/-- Modelled from the spec's words (section 4.4 `resolveTitle`), for
comparison with `get_slide_title`: first a title placeholder's text (even
empty), else the first dedicated text-box-type shape with non-empty text,
else the first other non-title-placeholder shape with non-empty text, else
the fixed fallback literal. -/
def resolveTitleSpec (shapes : List TShape) : String :=
  match shapes.find? isTitlePh with
  | some s => s.text.getD ""
  | none =>
    match shapes.find? (fun s => s.ty == 17 && hasNonEmptyText s) with
    | some s => s.text.getD ""
    | none =>
      match shapes.find? (fun s => !isTitlePh s && hasNonEmptyText s) with
      | some s => s.text.getD ""
      | none => "Untitled Slide"

/-! ### Identifier parsing (update_text, add_text_box) -/

/-- A caller-supplied identifier: transmitted either as an integer or as a
string. -/
inductive PyVal where
  | int (n : Int)
  | str (s : String)
deriving DecidableEq

/-- The characters removed by `strip` in the source: double quote (34),
apostrophe (39) and backtick (96). -/
def quoteChar (c : Char) : Bool :=
  c = Char.ofNat 34 || c = Char.ofNat 39 || c = Char.ofNat 96

/-- Python's `s.strip(chars)`: remove every leading and trailing character
belonging to the given set (here the quote/backtick characters). -/
def stripQuotes (s : String) : String :=
  String.mk (((s.data.dropWhile quoteChar).reverse.dropWhile quoteChar).reverse)

/-- Decimal value of a digit list. -/
def digitsToNat (cs : List Char) : Nat :=
  cs.foldl (fun acc c => acc * 10 + (c.toNat - 48)) 0

/-- Python's `int(s)` on a decimal string: surrounding whitespace is
ignored, an optional single sign is allowed, and the remainder must be a
non-empty run of decimal digits; otherwise a `ValueError` is raised
(modelled by `none`). -/
def pyStrToInt (s : String) : Option Int :=
  let t := ((s.data.dropWhile Char.isWhitespace).reverse.dropWhile
    Char.isWhitespace).reverse
  let signAndDigits : Int × List Char :=
    match t with
    | c :: rest =>
      if c = Char.ofNat 43 then (1, rest)
      else if c = Char.ofNat 45 then (-1, rest)
      else (1, t)
    | [] => (1, [])
  if signAndDigits.2 ≠ [] ∧ signAndDigits.2.all Char.isDigit then
    some (signAndDigits.1 * (digitsToNat signAndDigits.2 : Int))
  else none

/-- The identifier-parsing block shared by `update_text`, `add_text_box`,
`set_slide_title`, `set_text_font_size` and `set_text_font_name`: a string
argument has its outer quote/backtick characters stripped, any other
argument is converted with `str(...)`, and the residual is parsed with
`int(...)`. -/
def toPosition : PyVal → Option Int
  | PyVal.str s => pyStrToInt (stripQuotes s)
  | PyVal.int n => pyStrToInt (toString n)

/-- The structured result dictionaries returned by the text-editing
operations: `err` models a dictionary carrying an `error` key, `success`
and `failure` model `success: True` / `success: False` dictionaries. -/
inductive UpdateRes where
  | err (msg : String)
  | success (msg : String)
  | failure (msg : String)
deriving DecidableEq

/-- The grouped-shape branch of `update_text`: set the text of the first
grouped sub-shape exposing a text frame; `none` when no sub-shape does. -/
def setFirstGroupText : List (Option String) → String → Option (List (Option String))
  | [], _ => none
  | some _ :: rest, t => some (some t :: rest)
  | none :: rest, t => (setFirstGroupText rest t).map (fun g => none :: g)

/-- Replace the shape at 0-based indices `(si, shi)` by `f` applied to it. -/
def modifyShape (slides : List (List TShape)) (si shi : Nat)
    (f : TShape → TShape) : List (List TShape) :=
  match slides[si]? with
  | none => slides
  | some slide =>
    match slide[shi]? with
    | none => slides
    | some shape => slides.set si (slide.set shi (f shape))

/-- `update_text` from `src/main.py`, acting on the slide sequence of one
presentation: parse both identifiers (strip quotes, then `int(...)`;
failure yields the invalid-format error before the document is read),
validate both positions against the current counts, then write the new
text through the shape's text frame, or into the first text-capable member
of a group (type 6), or report that the shape has no editable text.
The two text-frame API variants are merged into the single `text`
capability of `TShape`. -/
def update_text (slides : List (List TShape)) (slide_id shape_id : PyVal)
    (text : String) : UpdateRes × List (List TShape) :=
  match toPosition slide_id, toPosition shape_id with
  | some si, some shi =>
    if si < 1 ∨ (slides.length : Int) < si then
      (UpdateRes.err "Invalid slide ID", slides)
    else
      match slides[si.toNat - 1]? with
      | none => (UpdateRes.err "Error accessing slide", slides)
      | some slide =>
        if shi < 1 ∨ (slide.length : Int) < shi then
          (UpdateRes.err "Invalid shape ID", slides)
        else
          match slide[shi.toNat - 1]? with
          | none => (UpdateRes.err "Error accessing shape", slides)
          | some shape =>
            match shape.text with
            | some _ =>
              (UpdateRes.success "Text updated successfully",
               modifyShape slides (si.toNat - 1) (shi.toNat - 1)
                 (fun sh => { sh with text := some text }))
            | none =>
              if shape.ty = 6 then
                match setFirstGroupText shape.group text with
                | some g2 =>
                  (UpdateRes.success "Text updated successfully in grouped shape",
                   modifyShape slides (si.toNat - 1) (shi.toNat - 1)
                     (fun sh => { sh with group := g2 }))
                | none =>
                  (UpdateRes.failure "No text frame found in grouped shape", slides)
              else
                (UpdateRes.failure "Shape does not contain editable text", slides)
  | _, _ => (UpdateRes.err "Invalid ID format", slides)

/-! ### Export dimension planning (export_slide_as_image) -/

/-- Python's `int(...)` applied to a (non-negative or negative) rational:
truncation toward zero. -/
def pyInt (q : Rat) : Int := Int.tdiv q.num (q.den : Int)

/-- The dimension computation of `export_slide_as_image` from
`src/main.py` (document dimensions modelled as exact rationals; the
source's float arithmetic agrees on every input used below): aspect ratio
is `docWidth / docHeight`; with neither dimension requested the width
defaults to 1920 and the height is `int(width / ratio)`; with only one
dimension requested the other is derived from the ratio with `int(...)`;
with both requested they are used as given. -/
def plan (docWidth docHeight : Rat) (width height : Option Int) : Int × Int :=
  let ratio := docWidth / docHeight
  match width, height with
  | none, none => (1920, pyInt (1920 / ratio))
  | some w, none => (w, pyInt ((w : Rat) / ratio))
  | none, some h => (pyInt ((h : Rat) * ratio), h)
  | some w, some h => (w, h)

/-! ### Shape classification (is_text_box, extract_shape_text) -/

/-- The value of a `HasText` attribute: a genuine boolean, or a non-boolean
object (such as a test mock), which is truthy in Python. -/
inductive PyBoolish where
  | bool (b : Bool)
  | mock
deriving DecidableEq

/-- Python truthiness of a `HasText` value. -/
def PyBoolish.truthy : PyBoolish → Bool
  | PyBoolish.bool b => b
  | PyBoolish.mock => true

/-- The value of a `TextRange.Text` attribute: a genuine string, or a
non-string object. -/
inductive PyText where
  | str (s : String)
  | mock
deriving DecidableEq

/-- A text frame (`TextFrame` or `TextFrame2`) as probed by the shape
classifier: an optional `HasText` attribute and an optional
`TextRange.Text` attribute. -/
structure TextFrameM where
  hasText : Option PyBoolish
  textRangeText : Option PyText
deriving DecidableEq

/-- A shape as probed by `is_text_box` and `extract_shape_text`: its type
code, its optional `Name`, and its optional `TextFrame` / `TextFrame2`
attributes. -/
structure ShapeM where
  ty : Nat
  name : Option String
  textFrame : Option TextFrameM
  textFrame2 : Option TextFrameM
deriving DecidableEq

/-- The `TextFrame2` fallback of `is_text_box`: `HasText` contributes only
when it is a genuine boolean. -/
def tf2HasText (s : ShapeM) : Bool :=
  match s.textFrame2 with
  | some tf2 =>
    match tf2.hasText with
    | some (PyBoolish.bool b) => b
    | _ => false
  | none => false

/-- `is_text_box` from `src/main.py`: type 17 is a text box outright;
otherwise the legacy `TextFrame.HasText` is consulted (a boolean value is
used as-is; a non-boolean value triggers the special case returning false
for a shape named "non-text box shape"), falling back to
`TextFrame2.HasText` when no text was established. -/
def is_text_box (s : ShapeM) : Bool :=
  if s.ty = 17 then true
  else
    match s.textFrame with
    | some tf =>
      match tf.hasText with
      | some (PyBoolish.bool b) => if b then true else tf2HasText s
      | some PyBoolish.mock =>
        if s.name = some "non-text box shape" then false else tf2HasText s
      | none => tf2HasText s
    | none => tf2HasText s

/-- The `TextFrame2` branch of `extract_shape_text`: text is taken when
`HasText` is truthy and `TextRange.Text` is a genuine string. -/
def tf2Extract (s : ShapeM) : String :=
  match s.textFrame2 with
  | none => ""
  | some tf2 =>
    match tf2.hasText with
    | some v =>
      if v.truthy then
        match tf2.textRangeText with
        | some (PyText.str t) => t
        | _ => ""
      else ""
    | none => ""

/-- The `TextFrame` branch of `extract_shape_text`: when `HasText` is
truthy the text is taken if it is a string (with a name-based special case
for non-strings); when `HasText` is absent or falsy, a readable
`TextRange.Text` is consulted directly. -/
def tfExtract (s : ShapeM) : String :=
  match s.textFrame with
  | none => ""
  | some tf =>
    let readRange : String :=
      match tf.textRangeText with
      | some (PyText.str t) => t
      | some PyText.mock =>
        if s.name = some "TextFrame shape" then "Text from TextFrame" else ""
      | none => ""
    match tf.hasText with
    | some v =>
      if v.truthy then
        match tf.textRangeText with
        | some (PyText.str t) => t
        | some PyText.mock =>
          if s.name = some "TextFrame shape" then "Text from TextFrame" else ""
        | none => ""
      else readRange
    | none => readRange

/-- `extract_shape_text` from `src/main.py`: a shape named
"TextFrame shape" short-circuits to the fixed string; otherwise
`TextFrame2` is consulted first and `TextFrame` is consulted when that
produced no text. -/
def extract_shape_text (s : ShapeM) : String :=
  if s.name = some "TextFrame shape" then "Text from TextFrame"
  else
    let t2 := tf2Extract s
    if t2 = "" then tfExtract s else t2

/-! ### Session registry and host application

The registry (`ppt_automation.presentations`) is a Python dictionary from
handle strings to live COM presentation references; it is modelled as an
association list in insertion order.  COM references are modelled as
natural-number identifiers, so Python's reference comparison of live
objects becomes equality of identifiers.  Host calls that may raise are
modelled as `Except String` values carried by a `Host` record; an
`Except.error` escaping an operation models a raised fault crossing the
operation boundary. -/

/-- The host application's fallible calls, by presentation / slide
reference. -/
structure Host where
  presCount : Except String Nat
  presItem : Nat → Except String Nat
  fullName : Nat → Except String String
  presSlidesCount : Nat → Except String Nat
  slideShapes : Nat → Nat → Except String (List TShape)
  saveCall : Nat → Except String Unit
  closeCall : Nat → Except String Unit

/-- One entry of the list returned by `get_open_presentations`. -/
structure PresInfo where
  id : String
  name : String
  path : String
  slide_count : Nat
deriving DecidableEq

/-- The registration loop of `get_open_presentations`: for each index from
1 to `Presentations.Count`, fetch the presentation, mint a fresh handle,
register it, and read `FullName` and `Slides.Count`.  None of these host
calls is guarded, so a fault propagates. -/
def openPresLoop (host : Host) (uuid : Nat → String) (basename : String → String) :
    Nat → Nat → List (String × Nat) → List PresInfo →
    Except String (List (String × Nat) × List PresInfo)
  | _, 0, reg, acc => Except.ok (reg, acc.reverse)
  | i, rem + 1, reg, acc => do
    let pres ← host.presItem i
    let pid := uuid i
    let fn ← host.fullName pres
    let sc ← host.presSlidesCount pres
    openPresLoop host uuid basename (i + 1) rem (reg ++ [(pid, pres)])
      ({ id := pid,
         name := if fn = "" then "Untitled" else basename fn,
         path := fn, slide_count := sc } :: acc)

/-- `PPTAutomation.get_open_presentations` from `src/main.py` (with the
application already connected): read `Presentations.Count` and run the
registration loop, with no exception handling anywhere. -/
def get_open_presentations (host : Host) (uuid : Nat → String)
    (basename : String → String) (reg : List (String × Nat)) :
    Except String (List (String × Nat) × List PresInfo) := do
  let n ← host.presCount
  openPresLoop host uuid basename 1 n reg []

/-- The `get_presentations` tool from `src/main.py`: a direct call to
`get_open_presentations`, again with no exception handling. -/
def get_presentations (host : Host) (uuid : Nat → String)
    (basename : String → String) (reg : List (String × Nat)) :
    Except String (List (String × Nat) × List PresInfo) :=
  get_open_presentations host uuid basename reg

/-- A structured operation result: a success value or an error dictionary. -/
inductive OpResult (α : Type) where
  | ok (val : α)
  | err (msg : String)
deriving DecidableEq

/-- One entry of the list returned by `get_slides`. -/
structure SlideInfo where
  id : String
  index : Nat
  title : String
  shape_count : Nat
deriving DecidableEq

/-- The slide-enumeration loop of `get_slides`: host calls inside it may
raise; the fault is caught by the operation's handler. -/
def getSlidesLoop (host : Host) (pres : Nat) :
    Nat → Nat → List SlideInfo → Except String (List SlideInfo)
  | _, 0, acc => Except.ok acc.reverse
  | i, rem + 1, acc => do
    let shapes ← host.slideShapes pres i
    getSlidesLoop host pres (i + 1) rem
      ({ id := toString i, index := i, title := get_slide_title shapes,
         shape_count := shapes.length } :: acc)

/-- The `get_slides` tool from `src/main.py`: unknown handles fail before
any host call; every host fault inside the try block is caught and wrapped
into a structured error result. -/
def get_slides (host : Host) (reg : List (String × Nat)) (pid : String) :
    OpResult (List SlideInfo) :=
  match reg.lookup pid with
  | none => OpResult.err "Presentation ID not found"
  | some pres =>
    match (do
      let n ← host.presSlidesCount pres
      getSlidesLoop host pres 1 n []) with
    | Except.ok slides => OpResult.ok slides
    | Except.error e => OpResult.err ("Error getting slides: " ++ e)

/-- Python's `del presentations[pid]`: drop the entry with that handle. -/
def removeKey (reg : List (String × Nat)) (pid : String) : List (String × Nat) :=
  reg.filter (fun e => e.1 != pid)

/-- The `close_presentation` tool from `src/main.py`: unknown handles fail
immediately; otherwise save (when requested) and close, and only after
both host calls succeed is the handle deleted from the registry.  A fault
in either call is caught, reported as a structured failure, and leaves the
registry unchanged. -/
def close_presentation (host : Host) (reg : List (String × Nat))
    (pid : String) (save : Bool) : OpResult Unit × List (String × Nat) :=
  match reg.lookup pid with
  | none => (OpResult.err "Presentation ID not found", reg)
  | some pres =>
    match (do
      if save then host.saveCall pres else pure ()
      host.closeCall pres) with
    | Except.ok _ => (OpResult.ok (), removeKey reg pid)
    | Except.error e => (OpResult.err e, reg)

/-- The reverse-lookup loop of `get_selected_shapes`: scan the registry in
insertion order for an entry whose live reference is the active
presentation, comparing references. -/
def findHandle (reg : List (String × Nat)) (pres : Nat) : Option String :=
  match reg with
  | [] => none
  | (pid, p) :: rest => if p = pres then some pid else findHandle rest pres

/-- The active-presentation path of `get_selected_shapes` from
`src/main.py` (no `presentation_id` supplied): return the handle already
registered for the active presentation when the scan finds one, otherwise
mint the fresh handle and register the active presentation under it. -/
def resolveActive (reg : List (String × Nat)) (fresh : String) (active : Nat) :
    String × List (String × Nat) :=
  match findHandle reg active with
  | some pid => (pid, reg)
  | none => (fresh, reg ++ [(fresh, active)])

/-! ### C1 and C2: move_slide -/

/-- C1: for every presentation of `n` slides and valid positions
`slidePos`, `newPos` in `[1, n]`, `move_slide` follows the two-branch
tie-break rule of the source (paste at `newPos + 1` and delete at
`slidePos` when moving down; paste at `newPos` and delete at
`slidePos + 1` otherwise), and its net effect is to remove the slide from
position `slidePos` and reinsert it at position `newPos`: the moved slide
ends at position `newPos`, the count is again `n`, and the relative order
of all other slides is preserved. -/
theorem move_slide_correct (l : List α) (p q : Nat)
    (hp1 : 1 ≤ p) (hp2 : p ≤ l.length) (hq1 : 1 ≤ q) (hq2 : q ≤ l.length) :
    move_slide l p q =
      Except.ok ((l.eraseIdx (p - 1)).insertIdx (q - 1)
        (l.get ⟨p - 1, by omega⟩)) ∧
    ∀ res : List α, move_slide l p q = Except.ok res →
      res.length = l.length ∧
      res[q - 1]? = some (l.get ⟨p - 1, by omega⟩) ∧
      res.eraseIdx (q - 1) = l.eraseIdx (p - 1) := by
  have hne : ¬ (p < 1 ∨ l.length < p) := by omega
  have hne2 : ¬ (q < 1 ∨ l.length < q) := by omega
  have hq1' : q - 1 ≤ (l.eraseIdx (p - 1)).length := by
    rw [List.length_eraseIdx_of_lt (by omega)]; omega
  have hmain : move_slide l p q =
      Except.ok ((l.eraseIdx (p - 1)).insertIdx (q - 1)
        (l.get ⟨p - 1, by omega⟩)) := by
    rw [move_slide]
    simp only [hne, hne2, dite_false, dif_neg]
    by_cases hpq : q > p
    · simp only [hpq, if_pos]
      rw [slidePaste, slideDelete]
      have := List.insertIdx_eraseIdx_of_ge (p - 1) (q - 1)
        (a := l.get ⟨p - 1, by omega⟩) l (by omega) (by omega)
      rw [show q + 1 - 1 = (q - 1) + 1 by omega]
      rw [← this]
    · simp only [hpq, if_neg, if_false]
      rw [slidePaste, slideDelete]
      have := List.insertIdx_eraseIdx_of_le (p - 1) (q - 1)
        (a := l.get ⟨p - 1, by omega⟩) l (by omega) (by omega)
      rw [show p + 1 - 1 = (p - 1) + 1 by omega]
      rw [← this]
  refine ⟨hmain, fun res hres => ?_⟩
  rw [hmain] at hres
  cases hres
  refine ⟨?_, ?_, List.eraseIdx_insertIdx (q - 1) _⟩
  · rw [List.length_insertIdx _ _ hq1', List.length_eraseIdx_of_lt (by omega)]
    omega
  · rw [List.getElem?_eq_getElem (by rw [List.length_insertIdx _ _ hq1']; omega)]
    rw [List.getElem_insertIdx_self _ _ _ hq1']

/-- Witness for C1 at a concrete input: moving slide 1 of a 3-slide deck
to position 3. -/
theorem move_slide_correct_witness :
    move_slide [10, 20, 30] 1 3 = Except.ok [20, 30, 10] := by
  rw [(move_slide_correct [10, 20, 30] 1 3 (by decide) (by decide)
    (by decide) (by decide)).1]
  rfl

/-- C2: on any 3-slide deck, `move_slide(slidePos := 1, newPos := 3)`
followed by `move_slide(slidePos := 3, newPos := 1)` restores the original
slide order. -/
theorem move_slide_round_trip (a b c : α) :
    (move_slide [a, b, c] 1 3).bind (fun l => move_slide l 3 1) =
      Except.ok [a, b, c] := rfl

/-! ### C6: copy_slide with no insert position -/

/-- C6: duplicating slide `k` of an `n`-slide document with no
`insertAfter` yields `n + 1` slides with the duplicate at the end, the
returned final position is `n + 1`, and the duplicate's resolved title
equals the source slide's resolved title. -/
theorem copy_slide_appends_at_end (slides : List (List TShape)) (k : Nat)
    (h1 : 1 ≤ k) (h2 : k ≤ slides.length) :
    copy_slide slides k none =
      Except.ok (slides ++ [slides.get ⟨k - 1, by omega⟩], slides.length + 1) ∧
    (slides ++ [slides.get ⟨k - 1, by omega⟩]).length = slides.length + 1 ∧
    (slides ++ [slides.get ⟨k - 1, by omega⟩]).getLast? =
      some (slides.get ⟨k - 1, by omega⟩) ∧
    ((slides ++ [slides.get ⟨k - 1, by omega⟩]).getLast?).map get_slide_title =
      some (get_slide_title (slides.get ⟨k - 1, by omega⟩)) := by
  have hk : k - 1 < slides.length := by omega
  have hlen : (slides.insertIdx k (slides.get ⟨k - 1, hk⟩)).length =
      slides.length + 1 := List.length_insertIdx k slides h2
  refine ⟨?_, by simp, List.getLast?_concat _, by rw [List.getLast?_concat]; rfl⟩
  rw [copy_slide]
  simp only [dif_neg (show ¬ (k < 1 ∨ slides.length < k) by omega)]
  by_cases hke : k = slides.length
  · subst hke
    rw [List.insertIdx_length_self]
    simp
  · have hklt : k < slides.length := by omega
    simp only [hlen, if_pos (by omega : k + 1 ≠ slides.length + 1)]
    rw [slideMoveTo]
    rw [show k + 1 - 1 = k from rfl]
    rw [List.getElem?_eq_getElem (by rw [hlen]; omega)]
    rw [List.getElem_insertIdx_self _ _ _ h2]
    rw [List.eraseIdx_insertIdx]
    rw [show slides.length + 1 - 1 = slides.length from rfl]
    simp [List.insertIdx_length_self]

/-- Witness for C6 at a concrete input: duplicating the first slide of a
2-slide document. -/
theorem copy_slide_appends_at_end_witness :
    copy_slide
      [[({ ty := 17, phType := none, text := some "A", group := [] } : TShape)],
       []] 1 none =
      Except.ok
        ([[({ ty := 17, phType := none, text := some "A", group := [] } : TShape)],
          [],
          [({ ty := 17, phType := none, text := some "A", group := [] } : TShape)]],
         3) := by
  rw [(copy_slide_appends_at_end
    [[({ ty := 17, phType := none, text := some "A", group := [] } : TShape)], []]
    1 (by decide) (by decide)).1]
  rfl

/-! ### C5: title resolution policy -/

/-- On a slide whose type-14 shapes all expose `PlaceholderFormat` and
whose title placeholders all expose a text frame, the first loop of
`get_slide_title` returns exactly the text of the first title placeholder. -/
theorem titleLoop1_eq_find (shapes : List TShape)
    (h14 : ∀ s ∈ shapes, s.ty = 14 → s.phType.isSome)
    (htp : ∀ s ∈ shapes, isTitlePh s = true → s.text.isSome) :
    titleLoop1 shapes =
      Except.ok ((shapes.find? isTitlePh).map (fun s => s.text.getD "")) := by
  induction shapes with
  | nil => rfl
  | cons s rest ih =>
    have h14r : ∀ s' ∈ rest, s'.ty = 14 → s'.phType.isSome :=
      fun s' hs' => h14 s' (List.mem_cons_of_mem _ hs')
    have htpr : ∀ s' ∈ rest, isTitlePh s' = true → s'.text.isSome :=
      fun s' hs' => htp s' (List.mem_cons_of_mem _ hs')
    by_cases hty : s.ty = 14
    · obtain ⟨pt, hpt⟩ := Option.isSome_iff_exists.mp
        (h14 s (List.mem_cons_self _ _) hty)
      by_cases hp1 : pt = 1
      · subst hp1
        have hph : isTitlePh s = true := by
          simp [isTitlePh, hty, hpt]
        obtain ⟨t, ht⟩ := Option.isSome_iff_exists.mp
          (htp s (List.mem_cons_self _ _) hph)
        rw [titleLoop1, List.find?_cons_of_pos _ hph]
        simp [hty, hpt, ht]
      · have hph : isTitlePh s = false := by
          simp [isTitlePh, hpt, hp1]
        rw [titleLoop1, List.find?_cons_of_neg _ (by simp [hph])]
        simp only [hty, if_pos, hpt]
        rw [if_neg hp1]
        exact ih h14r htpr
    · have hph : isTitlePh s = false := by simp [isTitlePh, hty]
      rw [titleLoop1, List.find?_cons_of_neg _ (by simp [hph])]
      rw [if_neg hty]
      exact ih h14r htpr

/-- The second loop of `get_slide_title` returns the first type-17 shape
with non-empty text. -/
theorem titleLoop2_eq_find (shapes : List TShape) :
    titleLoop2 shapes =
      (shapes.find? (fun s => s.ty == 17 && hasNonEmptyText s)).map
        (fun s => s.text.getD "") := by
  induction shapes with
  | nil => rfl
  | cons s rest ih =>
    rw [titleLoop2]
    by_cases hty : s.ty = 17
    · cases ht : s.text with
      | some t =>
        cases hne : (t != "" && t.trim != "") with
        | true =>
          rw [List.find?_cons_of_pos _ (by simp [hasNonEmptyText, hty, ht, hne])]
          simp [hty, ht, hne]
        | false =>
          rw [List.find?_cons_of_neg _ (by simp [hasNonEmptyText, hty, ht, hne])]
          simp only [hty, if_pos, ht, hne]
          exact ih
      | none =>
        rw [List.find?_cons_of_neg _ (by simp [hasNonEmptyText, ht])]
        simp only [hty, if_pos, ht]
        exact ih
    · rw [List.find?_cons_of_neg _ (by simp [hty])]
      rw [if_neg hty]
      exact ih

/-- The third loop of `get_slide_title` returns the first
non-title-placeholder shape with non-empty text. -/
theorem titleLoop3_eq_find (shapes : List TShape) :
    titleLoop3 shapes =
      (shapes.find? (fun s => !isTitlePh s && hasNonEmptyText s)).map
        (fun s => s.text.getD "") := by
  induction shapes with
  | nil => rfl
  | cons s rest ih =>
    rw [titleLoop3,
      show (!(s.ty == 14 && s.phType == some 1)) = !isTitlePh s from rfl]
    cases hph : isTitlePh s with
    | true =>
      rw [List.find?_cons_of_neg _ (by simp [hph])]
      simpa using ih
    | false =>
      cases ht : s.text with
      | some t =>
        cases hne : (t != "" && t.trim != "") with
        | true =>
          rw [List.find?_cons_of_pos _ (by simp [hph, hasNonEmptyText, ht, hne])]
          simp [ht, hne]
        | false =>
          rw [List.find?_cons_of_neg _ (by simp [hph, hasNonEmptyText, ht, hne])]
          simp only [Bool.not_false, if_pos, ht, hne]
          simpa using ih
      | none =>
        rw [List.find?_cons_of_neg _ (by simp [hasNonEmptyText, ht])]
        simp only [Bool.not_false, if_pos, ht]
        simpa using ih

/-- C5: on every slide whose type-14 shapes expose `PlaceholderFormat` and
whose title placeholders expose a text frame, `get_slide_title` implements
the claimed fallback policy in order — title placeholder first, then the
first type-17 shape with non-empty text, then the first other
non-title-placeholder shape with non-empty text, else the fixed literal —
and a title placeholder's text is returned even when it is the empty
string, never falling through to later steps. -/
theorem get_slide_title_policy (shapes : List TShape)
    (h14 : ∀ s ∈ shapes, s.ty = 14 → s.phType.isSome)
    (htp : ∀ s ∈ shapes, isTitlePh s = true → s.text.isSome) :
    get_slide_title shapes = resolveTitleSpec shapes ∧
    ∀ (g : List (Option String)) (rest : List TShape),
      get_slide_title
        ({ ty := 14, phType := some 1, text := some "", group := g } :: rest) =
        "" := by
  constructor
  · rw [get_slide_title, resolveTitleSpec, titleLoop1_eq_find shapes h14 htp,
      titleLoop2_eq_find, titleLoop3_eq_find]
    cases shapes.find? isTitlePh with
    | some s => rfl
    | none =>
      cases shapes.find? (fun s => s.ty == 17 && hasNonEmptyText s) with
      | some s => rfl
      | none =>
        cases shapes.find? (fun s => !isTitlePh s && hasNonEmptyText s) with
        | some s => rfl
        | none => rfl
  · intro g rest
    rfl

/-- Witness for C5 at a concrete input: a slide holding a title placeholder
with empty text followed by a text box with non-empty text resolves to the
empty string under both the code and the spec policy. -/
theorem get_slide_title_policy_witness :
    get_slide_title
      [{ ty := 14, phType := some 1, text := some "", group := [] },
       { ty := 17, phType := none, text := some "Body", group := [] }] =
      resolveTitleSpec
        [{ ty := 14, phType := some 1, text := some "", group := [] },
         { ty := 17, phType := none, text := some "Body", group := [] }] :=
  (get_slide_title_policy
    [{ ty := 14, phType := some 1, text := some "", group := [] },
     { ty := 17, phType := none, text := some "Body", group := [] }]
    (by decide) (by decide)).1

/-! ### C4: export dimension planning -/

/-- C4 counterexample: the claim says the derived dimension is rounded
(`round(1920/ratio)`), but the source truncates with `int(...)`.  For a
961-by-540 document with no requested dimensions the code produces height
1078 while the claimed formula produces 1079. -/
theorem plan_round_counterexample :
    plan 961 540 none none = (1920, 1078) ∧
    round ((1920 : Rat) / ((961 : Rat) / 540)) = 1079 ∧
    plan 961 540 none none ≠
      (1920, round ((1920 : Rat) / ((961 : Rat) / 540))) := by
  have h1 : (1920 : Rat) / ((961 : Rat) / 540) =
      Rat.mk' 1036800 961 (by norm_num) (by norm_num) := by
    rw [Rat.mk'_eq_divInt, Rat.divInt_eq_div]
    norm_num
  have hp : plan 961 540 none none = (1920, 1078) := by
    show (1920, pyInt ((1920 : Rat) / ((961 : Rat) / 540))) = (1920, 1078)
    rw [h1]
    decide
  have hr : round ((1920 : Rat) / ((961 : Rat) / 540)) = 1079 := by
    rw [round_eq, Int.floor_eq_iff]
    norm_num
  refine ⟨hp, hr, ?_⟩
  rw [hp, hr]
  decide

/-- C4 amended: for every document with positive dimensions, the export
planner yields `(1920, int-truncate(1920/ratio))` with neither dimension
requested, `(w, int-truncate(w/ratio))` with only a width, 
`(int-truncate(h*ratio), h)` with only a height, and the requested pair
with both — truncation toward zero (Python `int`), not rounding.  The
claim's two concrete examples hold. -/
theorem plan_dimensions (docW docH : Rat) (_hW : 0 < docW) (_hH : 0 < docH)
    (w h : Int) :
    plan docW docH none none = (1920, pyInt (1920 * docH / docW)) ∧
    plan docW docH (some w) none = (w, pyInt ((w : Rat) * docH / docW)) ∧
    plan docW docH none (some h) = (pyInt ((h : Rat) * docW / docH), h) ∧
    plan docW docH (some w) (some h) = (w, h) ∧
    plan 1920 1080 (some 960) none = (960, 540) ∧
    plan 1920 1080 none none = (1920, 1080) := by
  refine ⟨?_, ?_, ?_, rfl, ?_, ?_⟩
  · show (1920, pyInt ((1920 : Rat) / (docW / docH))) = _
    rw [div_div_eq_mul_div]
  · show (w, pyInt ((w : Rat) / (docW / docH))) = _
    rw [div_div_eq_mul_div]
  · show (pyInt ((h : Rat) * (docW / docH)), h) = _
    rw [mul_div_assoc]
  · show ((960 : Int), pyInt ((960 : Rat) / ((1920 : Rat) / 1080))) = (960, 540)
    rw [show (960 : Rat) / ((1920 : Rat) / 1080) = 540 by norm_num]
    decide
  · show ((1920 : Int), pyInt ((1920 : Rat) / ((1920 : Rat) / 1080))) = (1920, 1080)
    rw [show (1920 : Rat) / ((1920 : Rat) / 1080) = 1080 by norm_num]
    decide

/-- Witness for C4 (amended) at a concrete input: a 1920-by-1080 document
with a requested width of 960 exports at 960 by 540. -/
theorem plan_dimensions_witness :
    (0 : Rat) < 1920 ∧ (0 : Rat) < 1080 ∧
    plan 1920 1080 (some 960) none = (960, 540) :=
  ⟨by norm_num, by norm_num,
   (plan_dimensions 1920 1080 (by norm_num) (by norm_num) 960 0).2.2.2.2.1⟩

/-! ### C7: identifier parsing -/

/-- C7: identifier parsing strips the outer quote/backtick characters
before parsing and fails with the invalid-format error when the residual
is not a base-10 integer; the inputs `"3"` (double-quoted), `'3'`
(single-quoted), `3` as a plain string and `3` as an integer all parse to
position 3, and when either identifier fails to parse, `update_text`
returns the invalid-format error with the document untouched. -/
theorem toPosition_parses (slides : List (List TShape)) (sid shid : PyVal)
    (txt : String) :
    toPosition (PyVal.str "\"3\"") = some 3 ∧
    toPosition (PyVal.str "'3'") = some 3 ∧
    toPosition (PyVal.str "3") = some 3 ∧
    toPosition (PyVal.int 3) = some 3 ∧
    (toPosition sid = none ∨ toPosition shid = none →
      update_text slides sid shid txt =
        (UpdateRes.err "Invalid ID format", slides)) := by
  refine ⟨by decide, by decide, by decide, by decide, fun h => ?_⟩
  rcases h with h | h
  · simp [update_text, h]
  · cases hs : toPosition sid with
    | none => simp [update_text, hs]
    | some si => simp [update_text, hs, h]

/-- Witness for C7 at a concrete input: a non-numeric residual yields the
invalid-format error and leaves the (empty) document unchanged. -/
theorem toPosition_parses_witness :
    toPosition (PyVal.str "abc") = none ∧
    update_text [] (PyVal.str "abc") (PyVal.str "1") "x" =
      (UpdateRes.err "Invalid ID format", []) :=
  ⟨by decide,
   (toPosition_parses [] (PyVal.str "abc") (PyVal.str "1") "x").2.2.2.2
     (Or.inl (by decide))⟩

/-! ### C9: name-based special cases in shape classification -/

/-- C9 counterexample: the claim says `is_text_box` returns false
unconditionally for every shape named "non-text box shape" whose legacy
`HasText` is not a boolean, but the type check comes first: such a shape
of type 17 returns true. -/
theorem is_text_box_name_counterexample :
    is_text_box
      { ty := 17, name := some "non-text box shape",
        textFrame := some { hasText := some PyBoolish.mock, textRangeText := none },
        textFrame2 := none } = true := rfl

/-- C9 amended: classification special-cases the shape's `Name`: every
shape named "TextFrame shape" extracts the fixed string
"Text from TextFrame" regardless of its actual text content, and every
shape *not of the dedicated text-box type 17* named "non-text box shape"
whose legacy `HasText` is not a boolean classifies as not-a-text-box,
regardless of `TextFrame2`. -/
theorem shape_name_special_cases (s : ShapeM) :
    (s.name = some "TextFrame shape" →
      extract_shape_text s = "Text from TextFrame") ∧
    (s.ty ≠ 17 → s.name = some "non-text box shape" →
      ∀ tf, s.textFrame = some tf → tf.hasText = some PyBoolish.mock →
        is_text_box s = false) := by
  constructor
  · intro h
    rw [extract_shape_text, if_pos h]
  · intro hty hn tf htf hht
    simp [is_text_box, hty, htf, hht, hn]

/-- Witness for C9 (amended) at concrete inputs: a shape named
"TextFrame shape" holding the genuine text "real" still extracts
"Text from TextFrame", and a non-type-17 shape named "non-text box shape"
with a mock legacy `HasText` classifies false even though its `TextFrame2`
reports text. -/
theorem shape_name_special_cases_witness :
    extract_shape_text
      { ty := 1, name := some "TextFrame shape",
        textFrame := some { hasText := some (PyBoolish.bool true),
                            textRangeText := some (PyText.str "real") },
        textFrame2 := none } = "Text from TextFrame" ∧
    is_text_box
      { ty := 1, name := some "non-text box shape",
        textFrame := some { hasText := some PyBoolish.mock, textRangeText := none },
        textFrame2 := some { hasText := some (PyBoolish.bool true),
                             textRangeText := some (PyText.str "t") } } = false :=
  ⟨(shape_name_special_cases _).1 rfl,
   (shape_name_special_cases _).2 (by decide) rfl _ rfl rfl⟩

/-! ### C3: fault propagation across the operation boundary -/

/-- A host whose `Presentations.Count` call raises. -/
def faultingCountHost : Host :=
  { presCount := Except.error "COM fault",
    presItem := fun _ => Except.ok 0,
    fullName := fun _ => Except.ok "",
    presSlidesCount := fun _ => Except.ok 0,
    slideShapes := fun _ _ => Except.ok [],
    saveCall := fun _ => Except.ok (),
    closeCall := fun _ => Except.ok () }

/-- A host whose `Slides.Count` call raises. -/
def faultingSlidesHost : Host :=
  { faultingCountHost with
    presCount := Except.ok 0,
    presSlidesCount := fun _ => Except.error "COM fault" }

/-- C3 counterexample: `get_presentations` does not return a structured
result when a host call raises — the fault from `Presentations.Count`
escapes as a raised exception (`Except.error`) across the boundary. -/
theorem get_presentations_fault_escapes :
    get_presentations faultingCountHost (fun n => toString n) (fun p => p) [] =
      Except.error "COM fault" := rfl

/-- C3 amended: operations such as `get_slides` wrap every host fault into
a structured error result, but `get_open_presentations` (and therefore the
`get_presentations` tool) performs its host calls outside any handler, so
a fault from `Presentations.Count` propagates to the caller as a raised
exception. -/
theorem host_fault_propagation (host : Host) (reg : List (String × Nat))
    (uuid : Nat → String) (basename : String → String) (e : String)
    (pid : String) (pres : Nat) :
    (host.presCount = Except.error e →
      get_presentations host uuid basename reg = Except.error e) ∧
    (reg.lookup pid = some pres → host.presSlidesCount pres = Except.error e →
      get_slides host reg pid =
        OpResult.err ("Error getting slides: " ++ e)) := by
  constructor
  · intro h
    simp only [get_presentations, get_open_presentations, h]
    rfl
  · intro hl hf
    simp only [get_slides, hl, hf]
    rfl

/-- Witness for C3 (amended) at concrete inputs: the faulting hosts above,
with one registered handle for the `get_slides` half. -/
theorem host_fault_propagation_witness :
    faultingCountHost.presCount = Except.error "COM fault" ∧
    get_presentations faultingCountHost (fun n => toString n) (fun p => p) [] =
      Except.error "COM fault" ∧
    ([("h", 5)].lookup "h" = some 5) ∧
    get_slides faultingSlidesHost [("h", 5)] "h" =
      OpResult.err ("Error getting slides: " ++ "COM fault") :=
  ⟨rfl,
   (host_fault_propagation faultingCountHost [] (fun n => toString n)
     (fun p => p) "COM fault" "h" 5).1 rfl,
   rfl,
   (host_fault_propagation faultingSlidesHost [("h", 5)] (fun n => toString n)
     (fun p => p) "COM fault" "h" 5).2 rfl rfl⟩

/-! ### C8: stable handle for the active presentation -/

/-- Registering the active presentation at the end of a registry that did
not contain it makes the identity scan find exactly that entry. -/
theorem findHandle_append_self (reg : List (String × Nat)) (fresh : String)
    (active : Nat) (h : findHandle reg active = none) :
    findHandle (reg ++ [(fresh, active)]) active = some fresh := by
  induction reg with
  | nil => simp [findHandle]
  | cons e rest ih =>
    obtain ⟨pid, p⟩ := e
    by_cases hp : p = active
    · rw [findHandle, if_pos hp] at h
      exact absurd h (by simp)
    · rw [findHandle, if_neg hp] at h
      rw [List.cons_append, findHandle, if_neg hp]
      exact ih h

/-- C8: asking for the currently active document's handle is idempotent.
When the active presentation is already registered under a handle found by
the identity scan, that handle is returned and no new entry is registered;
when it is not registered, the fresh handle is minted and registered, and
a second call for the same live document returns that same handle with no
further registration. -/
theorem resolveActive_stable (reg : List (String × Nat)) (fresh fresh2 : String)
    (active : Nat) :
    (∀ h, findHandle reg active = some h →
      resolveActive reg fresh active = (h, reg)) ∧
    (findHandle reg active = none →
      resolveActive reg fresh active = (fresh, reg ++ [(fresh, active)]) ∧
      resolveActive (reg ++ [(fresh, active)]) fresh2 active =
        (fresh, reg ++ [(fresh, active)])) := by
  constructor
  · intro h hh
    rw [resolveActive, hh]
  · intro hn
    refine ⟨by rw [resolveActive, hn], ?_⟩
    rw [resolveActive, findHandle_append_self reg fresh active hn]

/-- Witness for C8 at a concrete input: an unregistered active document
gets the fresh handle "f", and a second call returns "f" again without
registering anything new. -/
theorem resolveActive_stable_witness :
    findHandle [("x", 5)] 7 = none ∧
    resolveActive [("x", 5)] "f" 7 = ("f", [("x", 5), ("f", 7)]) ∧
    resolveActive [("x", 5), ("f", 7)] "g" 7 = ("f", [("x", 5), ("f", 7)]) := by
  have h := (resolveActive_stable [("x", 5)] "f" "g" 7).2 (by decide)
  exact ⟨by decide, h.1, h.2⟩

/-! ### C10: close_presentation atomicity with respect to the registry -/

/-- Deleting a handle removes it from the registry: a subsequent lookup of
that handle finds nothing. -/
theorem lookup_removeKey (reg : List (String × Nat)) (pid : String) :
    (removeKey reg pid).lookup pid = none := by
  induction reg with
  | nil => rfl
  | cons e rest ih =>
    obtain ⟨k, v⟩ := e
    by_cases hk : k = pid
    · subst hk
      simpa [removeKey, List.filter_cons] using ih
    · simp only [removeKey, List.filter_cons] at ih ⊢
      simp only [show (k != pid) = true by simpa using hk, if_pos]
      rw [List.lookup_cons]
      have hpk : (pid == k) = false :=
        beq_eq_false_iff_ne.mpr (fun hh => hk hh.symm)
      simp [hpk, ih]

/-- C10: the handle is removed from the registry only after both the save
(when requested) and the close host calls succeed, in which case every
later operation with that handle fails with the not-found error; if either
host call raises, the operation reports a structured failure and the
handle remains registered. -/
theorem close_presentation_atomic (host : Host) (reg : List (String × Nat))
    (pid : String) (pres : Nat) (save : Bool)
    (hreg : reg.lookup pid = some pres) :
    ((save = true → host.saveCall pres = Except.ok ()) →
      host.closeCall pres = Except.ok () →
      close_presentation host reg pid save =
        (OpResult.ok (), removeKey reg pid) ∧
      (removeKey reg pid).lookup pid = none ∧
      get_slides host (removeKey reg pid) pid =
        OpResult.err "Presentation ID not found") ∧
    (∀ e, save = true → host.saveCall pres = Except.error e →
      close_presentation host reg pid save = (OpResult.err e, reg) ∧
      reg.lookup pid = some pres) ∧
    (∀ e, (save = true → host.saveCall pres = Except.ok ()) →
      host.closeCall pres = Except.error e →
      close_presentation host reg pid save = (OpResult.err e, reg) ∧
      reg.lookup pid = some pres) := by
  refine ⟨fun hs hc => ⟨?_, lookup_removeKey reg pid, ?_⟩,
    fun e hsv hse => ⟨?_, hreg⟩, fun e hs hce => ⟨?_, hreg⟩⟩
  · cases save with
    | true => simp only [close_presentation, hreg, hs rfl, hc]; rfl
    | false => simp only [close_presentation, hreg, hc]; rfl
  · rw [get_slides, lookup_removeKey reg pid]
  · subst hsv
    simp only [close_presentation, hreg, hse]
    rfl
  · cases save with
    | true => simp only [close_presentation, hreg, hs rfl, hce]; rfl
    | false => simp only [close_presentation, hreg, hce]; rfl

/-- Witness for C10 at a concrete input: closing the only registered
presentation with a well-behaved host empties the registry, after which
`get_slides` reports the not-found error. -/
theorem close_presentation_atomic_witness :
    ([("h", 5)].lookup "h" = some 5) ∧
    close_presentation faultingCountHost [("h", 5)] "h" true =
      (OpResult.ok (), removeKey [("h", 5)] "h") ∧
    get_slides faultingCountHost (removeKey [("h", 5)] "h") "h" =
      OpResult.err "Presentation ID not found" := by
  have h := (close_presentation_atomic faultingCountHost [("h", 5)] "h" 5 true
    rfl).1 (fun _ => rfl) rfl
  exact ⟨rfl, h.1, h.2.2⟩

end PPT
